import Mathlib

set_option maxRecDepth 8000

/-!
Verification of the packing script wav_to_header.py of the
punch-strength-arcade repository.  The script reads a fixed list of WAV
files, strips the 44-byte WAV header of each, and emits a C header file
with one PROGMEM byte array and length constant per file plus an ordered
lookup table and a count constant.

The embedding models file contents as lists of byte values and the
audio_files directory as a partial map from file names to contents.  The
string-producing functions follow the Python source line by line; the
Python library primitives the script uses (str.join, str.replace,
str.lower, format specifiers) are modelled by the py-prefixed helpers
below.
-/

/-- Concatenation of a list of strings, modelling the accumulating
string append loops of the script. -/
def concatAll : List String → String
  | [] => ""
  | s :: rest => s ++ concatAll rest

/-- Python str.join: the elements of the list separated by sep. -/
def pyJoin (sep : String) : List String → String
  | [] => ""
  | [a] => a
  | a :: b :: rest => a ++ sep ++ pyJoin sep (b :: rest)

/-- Python str.lower, character by character.  The script only compares
ASCII answers, for which Char.toLower agrees with Python. -/
def pyLower (s : String) : String :=
  String.mk (s.data.map Char.toLower)

/-- Python format specifier of the form 12s: left-justify to a minimum
width by padding with spaces on the right. -/
def pyPadRight (s : String) (w : Nat) : String :=
  s ++ String.mk (List.replicate (w - s.length) (' '))

/-- Python str.replace on character lists: replace every non-overlapping
occurrence of pat (assumed nonempty) by rep, scanning left to right.
Each step consumes at least one character, so fuel equal to the length
of the scanned list suffices. -/
def replaceAux (pat rep : List Char) : Nat → List Char → List Char
  | _, [] => []
  | 0, s => s
  | fuel + 1, c :: rest =>
    if pat ≠ [] ∧ (c :: rest).take pat.length = pat then
      rep ++ replaceAux pat rep fuel ((c :: rest).drop pat.length)
    else
      c :: replaceAux pat rep fuel rest

/-- Python str.replace, as used by get_var_name. -/
def pyReplace (s pat rep : String) : String :=
  String.mk (replaceAux pat.data rep.data s.data.length s.data)

/-- Uppercase hexadecimal digit characters, as produced by the Python
format specifier 02X. -/
def hexDigitChar (n : Nat) : Char :=
  if n < 10 then Char.ofNat (48 + n) else Char.ofNat (55 + n)

/-- Digits of n in base 16, most significant first.  The argument shrinks
by a factor of 16 every step, so n itself is always enough fuel. -/
def natToHexAux : Nat → Nat → List Char → List Char
  | 0, _, acc => acc
  | fuel + 1, n, acc =>
    if n = 0 then acc else natToHexAux fuel (n / 16) (hexDigitChar (n % 16) :: acc)

/-- Hexadecimal digit string of a natural number, uppercase. -/
def natToHexChars (n : Nat) : List Char :=
  if n = 0 then [('0')] else natToHexAux n n []

/-- Python format b:02X without the 0x marker: the hex digits of b,
zero-padded on the left to width at least 2. -/
def hex2 (b : Nat) : String :=
  String.mk (List.replicate (2 - (natToHexChars b).length) ('0') ++ natToHexChars b)

/-- Groups of at most three characters, taken from the front. -/
def chunks3 : List Char → List (List Char)
  | [] => []
  | [a] => [[a]]
  | [a, b] => [[a, b]]
  | a :: b :: c :: rest => [a, b, c] :: chunks3 rest

/-- Python format specifier of the form comma on an integer: decimal
digits with comma thousands separators, and a minus sign when negative. -/
def pyCommaFmt (n : Int) : String :=
  let digits := (toString n.natAbs).data
  let grouped := List.intercalate ([',']) (((chunks3 digits.reverse).map List.reverse).reverse)
  (if n < 0 then ("-") else ("")) ++ String.mk grouped

/-- Lines 16-22 of wav_to_header.py: the ordered list of required WAV
file names: numbers 1-9, 10-19, tens 20-90, hundreds 100-900, then the
connector word. -/
def REQUIRED_FILES : List String :=
  (List.range' 1 9 1).map (fun i => toString i ++ (".wav")) ++
  (List.range' 10 10 1).map (fun i => toString i ++ (".wav")) ++
  (List.range' 20 8 10).map (fun i => toString i ++ (".wav")) ++
  (List.range' 100 9 100).map (fun i => toString i ++ (".wav")) ++
  [("and.wav")]

/-- Line 30 of convert_wav_to_array: the audio payload is everything
after the fixed 44-byte WAV header. -/
def convert_audio_data (data : List Nat) : List Nat :=
  data.drop 44

/-- Loop of convert_wav_to_array (lines 36-42): starting at index i, emit
the payload bytes in rows of 16 as 0x literals, with a comma after every
row whose end is not the end of the payload.  The index advances by 16
each iteration, so fuel equal to the payload length plus one always
runs the loop to completion. -/
def rowsAux (audio : List Nat) : Nat → Nat → String
  | 0, _ => ""
  | fuel + 1, i =>
    if i < audio.length then
      ("  ") ++ pyJoin (", ") (((audio.drop i).take 16).map (fun b => ("0x") ++ hex2 b)) ++
      (if i + 16 < audio.length then (",") else ("")) ++ ("\n") ++
      rowsAux audio fuel (i + 16)
    else ""

/-- Rows of hex literals for a whole payload. -/
def wavRows (audio : List Nat) : String :=
  rowsAux audio (audio.length + 1) 0

/-- Lines 24-47: convert_wav_to_array builds the C text for one file: a
comment with the payload byte count, the PROGMEM byte array, and a _len
constant.  The Python function reads the file at a path and uses the
path base name; the caller passes the base name and the content here. -/
def convert_wav_to_array (basename : String) (data : List Nat) (var_name : String) : String :=
  ("// ") ++ basename ++ (" - ") ++ toString (convert_audio_data data).length ++ (" bytes\n") ++
  ("const uint8_t ") ++ var_name ++ ("[] PROGMEM = \x7b\n") ++
  wavRows (convert_audio_data data) ++
  ("\x7d;\n") ++
  ("const uint32_t ") ++ var_name ++ ("_len = ") ++
  toString (convert_audio_data data).length ++ (";\n\n")

/-- Lines 49-59: get_var_name strips the .wav extension, maps the
connector word to audio_and and a number N to audio_N. -/
def get_var_name (filename : String) : String :=
  let name := pyReplace filename (".wav") ("")
  if name = ("and") then ("audio_and") else ("audio_") ++ name

/-- One line of the audioFiles lookup table (line 74). -/
def lookup_entry (filename : String) : String :=
  ("  \x7b\"") ++ filename ++ ("\", ") ++ get_var_name filename ++ (", ") ++
  get_var_name filename ++ ("_len\x7d,\n")

/-- Lines 61-79: create_lookup_table emits the AudioFile struct, one
table line per file of file_list in order, and the audioFileCount
constant, which is the length of file_list. -/
def create_lookup_table (file_list : List String) : String :=
  ("// Lookup table for audio files\n") ++
  ("struct AudioFile \x7b\n") ++
  ("  const char* name;\n") ++
  ("  const uint8_t* data;\n") ++
  ("  uint32_t length;\n") ++
  ("\x7d;\n\n") ++
  ("const AudioFile audioFiles[] = \x7b\n") ++
  concatAll (file_list.map lookup_entry) ++
  ("\x7d;\n\n") ++
  ("const int audioFileCount = ") ++ toString file_list.length ++ (";\n\n")

/-- A snapshot of the audio_files directory: maps a file name to its
byte content when the file exists. -/
abbrev FileSystem : Type := String → Option (List Nat)

/-- Content of a file, defaulting to empty; only used on names whose
existence has been established. -/
def fileData (fs : FileSystem) (fn : String) : List Nat :=
  (fs fn).getD []

/-- Lines 99-110 of main: the required files that exist, collected in the
scan order of REQUIRED_FILES. -/
def existing_files (fs : FileSystem) : List String :=
  REQUIRED_FILES.filter (fun f => (fs f).isSome)

/-- Lines 99-110 of main: the required files that are absent, in scan
order. -/
def missing_files (fs : FileSystem) : List String :=
  REQUIRED_FILES.filter (fun f => !(fs f).isSome)

/-- Console lines printed by the scan for absent files (line 110), one
line naming each absent file individually. -/
def missingReports (fs : FileSystem) : List String :=
  (missing_files fs).map (fun fn => ("  ✗ ") ++ pyPadRight fn 12 ++ (" - MISSING!"))

/-- Lines 102-105: total payload size accumulated over the existing
files.  Python integer subtraction may go negative on short files, so
the model uses integers. -/
def total_size (fs : FileSystem) : Int :=
  ((existing_files fs).map (fun f => ((fileData fs f).length : Int) - 44)).sum

/-- Lines 139-167: the exact content written to audio_data.h. -/
def generateHeader (fs : FileSystem) : String :=
  ("// Auto-generated audio data from WAV files\n") ++
  ("// DO NOT EDIT MANUALLY\n") ++
  ("// Generated from ") ++ toString (existing_files fs).length ++ (" WAV files\n") ++
  ("// Total audio data: ") ++ pyCommaFmt (total_size fs) ++ (" bytes\n\n") ++
  ("#ifndef AUDIO_DATA_H\n") ++
  ("#define AUDIO_DATA_H\n\n") ++
  ("#include <Arduino.h>\n\n") ++
  concatAll ((existing_files fs).map
    (fun fn => convert_wav_to_array fn (fileData fs fn) (get_var_name fn))) ++
  create_lookup_table (existing_files fs) ++
  ("#endif // AUDIO_DATA_H\n")

/-- Observable outcome of one run of main: the process exit status and
the content written to audio_data.h, if any was written. -/
structure RunResult where
  exitCode : Nat
  written : Option String

/-- Control flow of main (lines 81-167) as a function of the inputs the
script consumes: whether the audio_files directory exists, the directory
snapshot, and the answer typed at the confirmation prompt.  The
directory check at line 87 exits with status 1 before any other work;
the confirmation at lines 131-134 exits with status 0 before the output
file is opened; otherwise the header is written and main returns,
exiting the process with status 0. -/
def runMain (audioDirExists : Bool) (fs : FileSystem) (response : String) : RunResult :=
  if audioDirExists = false then ⟨1, none⟩
  else if pyLower response ≠ ("y") then ⟨0, none⟩
  else ⟨0, some (generateHeader fs)⟩

/-- Directory snapshot with every file absent. -/
def fsEmpty : FileSystem := fun _ => none

/-- Snapshot in which exactly the required files 1.wav and 2.wav are
absent. -/
def fsTwoMissing : FileSystem :=
  fun f => if f = ("1.wav") ∨ f = ("2.wav") then none else some []

/-- Snapshot in which exactly the required files 1.wav, 2.wav and 3.wav
are absent. -/
def fsThreeMissing : FileSystem :=
  fun f => if f = ("1.wav") ∨ f = ("2.wav") ∨ f = ("3.wav") then none else some []

/-- Snapshot holding one required file. -/
def fsA : FileSystem :=
  fun f => if f = ("and.wav") then some ([1, 2, 3]) else none

/-- Snapshot agreeing with fsA on every required name but holding one
extra unrelated file. -/
def fsB : FileSystem :=
  fun f =>
    if f = ("and.wav") then some ([1, 2, 3])
    else if f = ("extra.txt") then some ([9]) else none

/-- A malformed input file shorter than the 44-byte WAV header. -/
def tenByteFile : List Nat := List.replicate 10 0

/-- A well-formed input file: 44 header bytes followed by 1000 sample
bytes. -/
def scenarioFile : List Nat := List.replicate 44 0 ++ List.replicate 1000 7

/-! Helper lemmas shared by the claim theorems. -/

/-- Splitting a list by a predicate partitions its length. -/
theorem length_filter_partition {α : Type} (p : α → Bool) (l : List α) :
    (l.filter p).length + (l.filter (fun a => !(p a))).length = l.length := by
  induction l with
  | nil => simp
  | cons a t ih =>
    by_cases h : p a = true <;> simp [List.filter_cons, h] <;> omega

/-- Existing and missing files together exhaust the 37 required files. -/
theorem existing_missing_partition (fs : FileSystem) :
    (existing_files fs).length + (missing_files fs).length = 37 := by
  have h := length_filter_partition (fun f => (fs f).isSome) REQUIRED_FILES
  have h37 : REQUIRED_FILES.length = 37 := by decide
  unfold existing_files missing_files
  simpa [h37] using h

/-- Hex digits are never the letter marking a byte literal. -/
theorem hexDigitChar_ne_x : ∀ m : Nat, m < 16 → hexDigitChar m ≠ ('x') := by decide

/-- The hex digit accumulator never produces the byte-literal marker. -/
theorem x_not_mem_natToHexAux : ∀ (fuel n : Nat) (acc : List Char),
    ('x') ∉ acc → ('x') ∉ natToHexAux fuel n acc := by
  intro fuel
  induction fuel with
  | zero =>
    intro n acc h
    simpa [natToHexAux] using h
  | succ fuel ih =>
    intro n acc h
    simp only [natToHexAux]
    split
    · exact h
    · apply ih
      intro hmem
      rcases List.mem_cons.mp hmem with h1 | h2
      · exact hexDigitChar_ne_x (n % 16) (Nat.mod_lt n (by omega)) h1.symm
      · exact h h2

/-- The hex digit string of a number never holds the byte-literal marker. -/
theorem x_not_mem_natToHexChars (n : Nat) : ('x') ∉ natToHexChars n := by
  unfold natToHexChars
  split
  · decide
  · exact x_not_mem_natToHexAux n n [] (by simp)

/-- A padded two-digit hex body holds no byte-literal marker. -/
theorem count_x_hex2 (b : Nat) : (hex2 b).data.count ('x') = 0 := by
  show List.count ('x')
    (List.replicate (2 - (natToHexChars b).length) ('0') ++ natToHexChars b) = 0
  rw [List.count_eq_zero]
  intro hmem
  rcases List.mem_append.mp hmem with h1 | h2
  · exact absurd (List.eq_of_mem_replicate h1) (by decide)
  · exact x_not_mem_natToHexChars b h2

/-- Each emitted byte literal holds the marker exactly once. -/
theorem count_x_hex_literal (b : Nat) : ((("0x") ++ hex2 b).data.count ('x')) = 1 := by
  rw [String.data_append, List.count_append, count_x_hex2]
  decide

/-- A joined row of byte literals holds one marker per byte. -/
theorem count_x_pyJoin : ∀ l : List Nat,
    ((pyJoin (", ") (l.map (fun b => ("0x") ++ hex2 b))).data.count ('x')) = l.length := by
  intro l
  induction l with
  | nil => rfl
  | cons b t ih =>
    cases t with
    | nil =>
      simp only [List.map_cons, List.map_nil, pyJoin, List.length_cons, List.length_nil]
      rw [count_x_hex_literal]
    | cons b2 t2 =>
      simp only [List.map_cons, pyJoin] at ih ⊢
      rw [String.data_append, String.data_append, List.count_append, List.count_append,
        count_x_hex_literal, ih]
      have hsep : ((", " : String)).data.count ('x') = 0 := by decide
      rw [hsep]
      simp only [List.length_cons]
      omega

/-- The row loop emits exactly one byte literal per remaining payload
byte, provided the fuel covers the remaining iterations. -/
theorem count_x_rowsAux (audio : List Nat) :
    ∀ (fuel i : Nat), audio.length ≤ i + 16 * fuel →
      ((rowsAux audio fuel i).data.count ('x')) = audio.length - i := by
  intro fuel
  induction fuel with
  | zero =>
    intro i hle
    show ((("" : String)).data.count ('x')) = audio.length - i
    simp
    omega
  | succ fuel ih =>
    intro i hle
    simp only [rowsAux]
    split
    · rename_i hi
      rw [String.data_append, String.data_append, String.data_append, String.data_append,
        List.count_append, List.count_append, List.count_append, List.count_append,
        count_x_pyJoin, ih (i + 16) (by omega)]
      have h1 : ((("  ") : String)).data.count ('x') = 0 := by decide
      have h2 : ((("\n") : String)).data.count ('x') = 0 := by decide
      have h3 : ((if i + 16 < audio.length then (",") else ("")) : String).data.count ('x') = 0 := by
        split <;> decide
      rw [h1, h2, h3]
      have hchunk : ((audio.drop i).take 16).length = min 16 (audio.length - i) := by
        simp [List.length_take, List.length_drop]
      rw [hchunk]
      omega
    · rename_i hi
      show ((("" : String)).data.count ('x')) = audio.length - i
      simp
      omega

/-- The emitted rows of a payload hold exactly one byte literal per
payload byte. -/
theorem count_x_wavRows (audio : List Nat) :
    ((wavRows audio).data.count ('x')) = audio.length := by
  have h := count_x_rowsAux audio (audio.length + 1) 0 (by omega)
  simpa using h

/-- Rows of an empty payload are empty. -/
theorem wavRows_nil : wavRows ([] : List Nat) = "" := rfl

/-- Decimal rendering of zero. -/
theorem toString_nat_zero : toString (0 : Nat) = ("0") := rfl

/-- Only the two case variants of the accepting letter lower to it. -/
theorem toLower_eq_y_cases (c : Char) (h : Char.toLower c = ('y')) :
    c = ('y') ∨ c = ('Y') := by
  simp only [Char.toLower] at h
  by_cases hr : c.toNat ≥ 65 ∧ c.toNat ≤ 90
  · right
    rw [if_pos hr] at h
    have hv : (c.toNat + 32).isValidChar := by
      left
      omega
    have h2 : (Char.ofNat (c.toNat + 32)).toNat = c.toNat + 32 := by
      unfold Char.ofNat
      rw [dif_pos hv]
      exact rfl
    rw [h] at h2
    have h3 : ('y').toNat = 121 := by decide
    have h5 : c.toNat = ('Y').toNat := by
      have h4 : ('Y').toNat = 89 := by decide
      omega
    exact Char.ext (UInt32.ext h5)
  · left
    rw [if_neg hr] at h
    exact h

/-- The confirmation test passes exactly on the two case variants of the
accepting letter. -/
theorem pyLower_eq_y_iff (s : String) : pyLower s = ("y") ↔ (s = ("y") ∨ s = ("Y")) := by
  cases s with
  | mk l =>
    constructor
    · intro h
      have hdata : l.map Char.toLower = [('y')] := congrArg String.data h
      cases l with
      | nil => simp at hdata
      | cons c t =>
        simp only [List.map_cons, List.cons.injEq] at hdata
        obtain ⟨hc, ht⟩ := hdata
        have ht' : t = [] := List.map_eq_nil_iff.mp ht
        rcases toLower_eq_y_cases c hc with rfl | rfl
        · left
          rw [ht']
        · right
          rw [ht']
    · intro h
      rcases h with h | h
      · rw [h]
        decide
      · rw [h]
        decide

/-! Claim theorems. -/

/-- Claim C1: for every input file of at least 44 bytes, the payload kept
by convert_wav_to_array is exactly the file bytes from offset 44 to the
end, its length is the file size minus 44, and both the commented byte
count and the _len constant of the emitted text render that same number;
there is no truncation or padding. -/
theorem convert_emits_exact_length_and_content (fn var_name : String) (data : List Nat)
    (i : Nat) (h : 44 ≤ data.length) :
    convert_audio_data data = data.drop 44 ∧
    (convert_audio_data data).length = data.length - 44 ∧
    44 + (convert_audio_data data).length = data.length ∧
    (convert_audio_data data)[i]? = data[44 + i]? ∧
    convert_wav_to_array fn data var_name =
      ("// ") ++ fn ++ (" - ") ++ toString (data.length - 44) ++ (" bytes\n") ++
      ("const uint8_t ") ++ var_name ++ ("[] PROGMEM = \x7b\n") ++
      wavRows (data.drop 44) ++
      ("\x7d;\n") ++
      ("const uint32_t ") ++ var_name ++ ("_len = ") ++
      toString (data.length - 44) ++ (";\n\n") := by
  refine ⟨rfl, by simp [convert_audio_data], ?_, ?_, ?_⟩
  · have hl : (convert_audio_data data).length = data.length - 44 := by
      simp [convert_audio_data]
    omega
  · simp [convert_audio_data, List.getElem?_drop]
  · simp only [convert_wav_to_array, convert_audio_data, List.length_drop]

/-- Claim C1 witness: the scenario input of 44 header bytes plus 1000
sample bytes, packed under identifier 100, declares length 1000. -/
theorem convert_emits_exact_length_and_content_witness :
    44 ≤ scenarioFile.length ∧
    (convert_audio_data scenarioFile = scenarioFile.drop 44 ∧
      (convert_audio_data scenarioFile).length = scenarioFile.length - 44 ∧
      44 + (convert_audio_data scenarioFile).length = scenarioFile.length ∧
      (convert_audio_data scenarioFile)[0]? = scenarioFile[44 + 0]? ∧
      convert_wav_to_array ("100.wav") scenarioFile ("audio_100") =
        ("// ") ++ ("100.wav") ++ (" - ") ++ toString (scenarioFile.length - 44) ++ (" bytes\n") ++
        ("const uint8_t ") ++ ("audio_100") ++ ("[] PROGMEM = \x7b\n") ++
        wavRows (scenarioFile.drop 44) ++
        ("\x7d;\n") ++
        ("const uint32_t ") ++ ("audio_100") ++ ("_len = ") ++
        toString (scenarioFile.length - 44) ++ (";\n\n")) :=
  ⟨by simp [scenarioFile], convert_emits_exact_length_and_content ("100.wav") ("audio_100")
    scenarioFile 0 (by simp [scenarioFile])⟩

/-- Claim C2 counterexample: the required-file list has 37 entries, not
35, so with exactly two files absent the emitted count is exactly 35 —
the value the claim says the count can never take. -/
theorem audioFileCount_reaches_35_on_proper_subset :
    fsTwoMissing ("1.wav") = none ∧ ("1.wav") ∈ REQUIRED_FILES ∧
    (existing_files fsTwoMissing).length = 35 ∧ REQUIRED_FILES.length = 37 := by
  decide

/-- Claim C2 (amended: the statically configured total is 37, not 35):
for every directory snapshot missing at least one required file, the
emitted audioFileCount equals the number of table lines actually
written, which is the number of existing files, and is strictly less
than the configured total of 37. -/
theorem audioFileCount_matches_written_entries (fs : FileSystem)
    (hmiss : missing_files fs ≠ []) :
    ((existing_files fs).map lookup_entry).length = (existing_files fs).length ∧
    create_lookup_table (existing_files fs) =
      ("// Lookup table for audio files\n") ++
      ("struct AudioFile \x7b\n") ++
      ("  const char* name;\n") ++
      ("  const uint8_t* data;\n") ++
      ("  uint32_t length;\n") ++
      ("\x7d;\n\n") ++
      ("const AudioFile audioFiles[] = \x7b\n") ++
      concatAll ((existing_files fs).map lookup_entry) ++
      ("\x7d;\n\n") ++
      ("const int audioFileCount = ") ++ toString (existing_files fs).length ++ (";\n\n") ∧
    (existing_files fs).length < 37 ∧ REQUIRED_FILES.length = 37 := by
  refine ⟨by simp, rfl, ?_, by decide⟩
  have hpart := existing_missing_partition fs
  have hpos : 0 < (missing_files fs).length := List.length_pos.mpr hmiss
  omega

/-- Claim C2 witness: with the files 1.wav and 2.wav absent the count is
the number of written entries, 35, which is less than 37. -/
theorem audioFileCount_matches_written_entries_witness :
    missing_files fsTwoMissing ≠ [] ∧
    (((existing_files fsTwoMissing).map lookup_entry).length =
        (existing_files fsTwoMissing).length ∧
      create_lookup_table (existing_files fsTwoMissing) =
        ("// Lookup table for audio files\n") ++
        ("struct AudioFile \x7b\n") ++
        ("  const char* name;\n") ++
        ("  const uint8_t* data;\n") ++
        ("  uint32_t length;\n") ++
        ("\x7d;\n\n") ++
        ("const AudioFile audioFiles[] = \x7b\n") ++
        concatAll ((existing_files fsTwoMissing).map lookup_entry) ++
        ("\x7d;\n\n") ++
        ("const int audioFileCount = ") ++ toString (existing_files fsTwoMissing).length ++
        (";\n\n") ∧
      (existing_files fsTwoMissing).length < 37 ∧ REQUIRED_FILES.length = 37) :=
  ⟨by decide, audioFileCount_matches_written_entries fsTwoMissing (by decide)⟩

/-- Claim C3: the required-file list is exactly the canonical vocabulary
enumeration (1-9, 10-19, tens, hundreds, connector), the existing files
form an order-preserving sublist of it for every directory snapshot, and
the emitted lookup table lists exactly those files in that order. -/
theorem lookup_table_order_canonical (fs : FileSystem) :
    REQUIRED_FILES =
      [("1.wav"), ("2.wav"), ("3.wav"), ("4.wav"), ("5.wav"), ("6.wav"), ("7.wav"),
        ("8.wav"), ("9.wav"), ("10.wav"), ("11.wav"), ("12.wav"), ("13.wav"), ("14.wav"),
        ("15.wav"), ("16.wav"), ("17.wav"), ("18.wav"), ("19.wav"), ("20.wav"), ("30.wav"),
        ("40.wav"), ("50.wav"), ("60.wav"), ("70.wav"), ("80.wav"), ("90.wav"), ("100.wav"),
        ("200.wav"), ("300.wav"), ("400.wav"), ("500.wav"), ("600.wav"), ("700.wav"),
        ("800.wav"), ("900.wav"), ("and.wav")] ∧
    List.Sublist (existing_files fs) REQUIRED_FILES ∧
    create_lookup_table (existing_files fs) =
      ("// Lookup table for audio files\n") ++
      ("struct AudioFile \x7b\n") ++
      ("  const char* name;\n") ++
      ("  const uint8_t* data;\n") ++
      ("  uint32_t length;\n") ++
      ("\x7d;\n\n") ++
      ("const AudioFile audioFiles[] = \x7b\n") ++
      concatAll ((existing_files fs).map lookup_entry) ++
      ("\x7d;\n\n") ++
      ("const int audioFileCount = ") ++ toString (existing_files fs).length ++ (";\n\n") :=
  ⟨by decide, List.filter_sublist REQUIRED_FILES, rfl⟩

/-- Claim C4: behaviour of the code at the failing input.  A ten-byte
file is shorter than the 44-byte WAV header; the encoder raises no error
and silently emits an empty payload with declared length 0, while the
scan loop of main would add the negative size -34 to the running
total.  The claim (and the spec) requires a malformed-input error
here instead. -/
theorem short_input_silently_yields_empty_payload :
    tenByteFile.length = 10 ∧
    convert_audio_data tenByteFile = [] ∧
    ((tenByteFile.length : Int) - 44) = (-34) ∧
    convert_wav_to_array ("5.wav") tenByteFile ("audio_5") =
      ("// ") ++ ("5.wav") ++ (" - ") ++ ("0") ++ (" bytes\n") ++
      ("const uint8_t ") ++ ("audio_5") ++ ("[] PROGMEM = \x7b\n") ++
      ("\x7d;\n") ++
      ("const uint32_t ") ++ ("audio_5") ++ ("_len = ") ++ ("0") ++ (";\n\n") := by
  decide

/-- Claim C5 counterexample: with 3 of the required files absent the
generated table has 34 entries, not the 32 the claim states, because the
required-file list has 37 entries rather than 35. -/
theorem three_missing_yields_34_entries :
    (missing_files fsThreeMissing).length = 3 ∧
    (existing_files fsThreeMissing).length = 34 ∧
    (existing_files fsThreeMissing).length ≠ 32 := by
  decide

/-- Claim C5 (amended: 3 of the 37 expected files missing leaves exactly
34 entries): every absent required file is excluded from the emitted
lookup table entirely and is reported individually by name, and the
existing and missing files always partition the 37 required files. -/
theorem missing_file_excluded_and_reported (fs : FileSystem) (f : String)
    (hf : f ∈ REQUIRED_FILES) (hm : fs f = none) :
    f ∉ existing_files fs ∧
    ((("  ✗ ") ++ pyPadRight f 12 ++ (" - MISSING!")) ∈ missingReports fs) ∧
    (existing_files fs).length + (missing_files fs).length = 37 := by
  refine ⟨?_, ?_, existing_missing_partition fs⟩
  · intro hmem
    unfold existing_files at hmem
    simp [List.mem_filter, hm] at hmem
  · unfold missingReports
    apply List.mem_map_of_mem
    unfold missing_files
    apply List.mem_filter.mpr
    refine ⟨hf, ?_⟩
    simp [hm]

/-- Claim C5 witness: a snapshot missing 1.wav, 2.wav and 3.wav excludes
and reports 2.wav, and its 34 existing plus 3 missing files partition
the 37 required files. -/
theorem missing_file_excluded_and_reported_witness :
    ("2.wav") ∈ REQUIRED_FILES ∧ fsThreeMissing ("2.wav") = none ∧
    (("2.wav") ∉ existing_files fsThreeMissing ∧
      ((("  ✗ ") ++ pyPadRight ("2.wav") 12 ++ (" - MISSING!")) ∈
        missingReports fsThreeMissing) ∧
      (existing_files fsThreeMissing).length + (missing_files fsThreeMissing).length = 37) :=
  ⟨by decide, by decide,
    missing_file_excluded_and_reported fsThreeMissing ("2.wav") (by decide) (by decide)⟩

/-- Claim C6: on an input of exactly 44 bytes the encoder totally
computes its result (no crash): the payload is empty and the emitted
text declares length 0 with an empty byte array. -/
theorem boundary_44_byte_file_empty_payload (fn var_name : String) (data : List Nat)
    (h : data.length = 44) :
    convert_audio_data data = [] ∧
    convert_wav_to_array fn data var_name =
      ("// ") ++ fn ++ (" - ") ++ ("0") ++ (" bytes\n") ++
      ("const uint8_t ") ++ var_name ++ ("[] PROGMEM = \x7b\n") ++
      ("\x7d;\n") ++
      ("const uint32_t ") ++ var_name ++ ("_len = ") ++ ("0") ++ (";\n\n") := by
  have hd : data.drop 44 = [] := List.drop_eq_nil_of_le (le_of_eq h)
  constructor
  · exact hd
  · simp only [convert_wav_to_array, convert_audio_data, hd, wavRows_nil, List.length_nil,
      toString_nat_zero, String.append_empty]

/-- Claim C6 witness: a concrete 44-byte file yields the empty payload
and the zero-length emission. -/
theorem boundary_44_byte_file_empty_payload_witness :
    (List.replicate 44 (3 : Nat)).length = 44 ∧
    (convert_audio_data (List.replicate 44 (3 : Nat)) = [] ∧
      convert_wav_to_array ("9.wav") (List.replicate 44 (3 : Nat)) ("audio_9") =
        ("// ") ++ ("9.wav") ++ (" - ") ++ ("0") ++ (" bytes\n") ++
        ("const uint8_t ") ++ ("audio_9") ++ ("[] PROGMEM = \x7b\n") ++
        ("\x7d;\n") ++
        ("const uint32_t ") ++ ("audio_9") ++ ("_len = ") ++ ("0") ++ (";\n\n")) :=
  ⟨by decide, boundary_44_byte_file_empty_payload ("9.wav") ("audio_9")
    (List.replicate 44 (3 : Nat)) (by decide)⟩

/-- Claim C7 counterexample: the identifiers are derived from 37
required filenames, not 35. -/
theorem required_identifiers_number_37 :
    (REQUIRED_FILES.map get_var_name).length = 37 ∧
    (REQUIRED_FILES.map get_var_name).length ≠ 35 := by
  decide

/-- Claim C7 (amended: the identifiers come from the 37 required
filenames, not 35): every emitted entry declares, in its comment and in
its _len constant, exactly the payload length, the byte blob between the
braces holds exactly one byte literal per payload byte (each literal is
marked by a single occurrence of the letter x and that letter occurs
nowhere else in the rows), and the identifiers derived from the required
filenames are pairwise distinct. -/
theorem packed_index_invariant (fn var_name : String) (data : List Nat) :
    convert_wav_to_array fn data var_name =
      ("// ") ++ fn ++ (" - ") ++ toString (convert_audio_data data).length ++ (" bytes\n") ++
      ("const uint8_t ") ++ var_name ++ ("[] PROGMEM = \x7b\n") ++
      wavRows (convert_audio_data data) ++
      ("\x7d;\n") ++
      ("const uint32_t ") ++ var_name ++ ("_len = ") ++
      toString (convert_audio_data data).length ++ (";\n\n") ∧
    ((wavRows (convert_audio_data data)).data.count ('x')) = (convert_audio_data data).length ∧
    (REQUIRED_FILES.map get_var_name).Nodup :=
  ⟨rfl, count_x_wavRows (convert_audio_data data), by decide⟩

/-- Claim C8: the generated header is a deterministic function of the
contents of the required files alone; two directory snapshots agreeing
on every required file produce byte-identical output, so re-running the
packing step on an unchanged directory reproduces the same file. -/
theorem packing_deterministic (fs1 fs2 : FileSystem) (resp : String)
    (h : ∀ f ∈ REQUIRED_FILES, fs1 f = fs2 f) :
    generateHeader fs1 = generateHeader fs2 ∧
    runMain true fs1 resp = runMain true fs2 resp := by
  have hEx : existing_files fs1 = existing_files fs2 := by
    unfold existing_files
    exact List.filter_congr (fun f hf => by rw [h f hf])
  have hdat : ∀ g ∈ existing_files fs2, fileData fs1 g = fileData fs2 g := by
    intro g hg
    have hgr : g ∈ REQUIRED_FILES := List.mem_of_mem_filter hg
    unfold fileData
    rw [h g hgr]
  have hts : total_size fs1 = total_size fs2 := by
    unfold total_size
    rw [hEx]
    congr 1
    exact List.map_congr_left (fun g hg => by rw [hdat g hg])
  have hgen : generateHeader fs1 = generateHeader fs2 := by
    unfold generateHeader
    rw [hEx, hts]
    have hmap : (existing_files fs2).map
        (fun fn => convert_wav_to_array fn (fileData fs1 fn) (get_var_name fn)) =
        (existing_files fs2).map
        (fun fn => convert_wav_to_array fn (fileData fs2 fn) (get_var_name fn)) :=
      List.map_congr_left (fun g hg => by rw [hdat g hg])
    rw [hmap]
  refine ⟨hgen, ?_⟩
  unfold runMain
  rw [hgen]

/-- Claim C8 witness: two snapshots agreeing on every required file but
differing on an unrelated extra file produce identical output. -/
theorem packing_deterministic_witness :
    fsA ("and.wav") = fsB ("and.wav") ∧
    generateHeader fsA = generateHeader fsB ∧
    runMain true fsA ("y") = runMain true fsB ("y") :=
  ⟨by decide, (packing_deterministic fsA fsB ("y") (by decide)).1,
    (packing_deterministic fsA fsB ("y") (by decide)).2⟩

/-- Claim C9: declining at the confirmation prompt exits with status 0
and nothing is written (the prompt precedes the opening of the output
file), while a missing source directory exits with status 1 without
writing anything. -/
theorem cancel_exits_cleanly_without_output (fs : FileSystem) (resp : String)
    (hno : pyLower resp ≠ ("y")) :
    runMain true fs resp = ⟨0, none⟩ ∧
    (runMain false fs resp).exitCode = 1 ∧ (runMain false fs resp).written = none := by
  refine ⟨?_, rfl, rfl⟩
  show (if pyLower resp ≠ ("y") then (⟨0, none⟩ : RunResult)
    else ⟨0, some (generateHeader fs)⟩) = ⟨0, none⟩
  rw [if_pos hno]

/-- Claim C9 witness: answering n cancels with exit status 0 and no
output, and a missing directory exits with status 1. -/
theorem cancel_exits_cleanly_without_output_witness :
    pyLower ("n") ≠ ("y") ∧
    (runMain true fsEmpty ("n") = ⟨0, none⟩ ∧
      (runMain false fsEmpty ("n")).exitCode = 1 ∧
      (runMain false fsEmpty ("n")).written = none) :=
  ⟨by decide, cancel_exits_cleanly_without_output fsEmpty ("n") (by decide)⟩

/-- Claim C10: with the directory present, output is written exactly
when the response is the single letter y in either case; every other
response, including the word yes, declines and the script exits with
status 0 having written nothing. -/
theorem only_single_letter_y_proceeds (fs : FileSystem) (resp : String) :
    ((runMain true fs resp).written.isSome ↔ (resp = ("y") ∨ resp = ("Y"))) ∧
    (runMain true fs resp).exitCode = 0 := by
  have hrm : runMain true fs resp =
      (if pyLower resp ≠ ("y") then (⟨0, none⟩ : RunResult)
        else ⟨0, some (generateHeader fs)⟩) := rfl
  by_cases hy : pyLower resp = ("y")
  · rw [hrm, if_neg (fun hcon => hcon hy)]
    exact ⟨Iff.intro (fun _ => (pyLower_eq_y_iff resp).mp hy) (fun _ => rfl), rfl⟩
  · rw [hrm, if_pos hy]
    refine ⟨?_, rfl⟩
    constructor
    · intro hfalse
      simp at hfalse
    · intro hor
      exact absurd ((pyLower_eq_y_iff resp).mpr hor) hy
